import Mathlib

/-!
Verification of the OpenSailingRC-BoatGPS core (fix acquisition, broadcast
transport, rotating log store) against its natural-language specification.

The definitions below are a shallow embedding of the C++ sources:
  * `src/src/GPS.cpp`, `src/include/GPS.h`      — fix acquisition (`GPS` class)
  * `src/src/Logger.cpp` (Communication part),
    `src/include/Communication.h`               — ESP-NOW broadcast transport
  * `src/unnamed/part_006` (`Storage.cpp`),
    `src/unnamed/part_002` (`Storage.h`)        — SD-card rotating JSON log
  * `src/unnamed/part_004` (`main.cpp`)         — the per-cycle orchestrator

Machine integers are modelled as `Nat` with explicit `% 2^w` at the points
where the C++ code performs narrowing conversions or can overflow
(`uint8_t satellites`, `uint32_t sequenceCounter`, …).  External collaborators
(TinyGPSPlus decoder, the ESP-NOW radio, the SD medium) are modelled as
explicit inputs: one `DecoderReport` per update cycle, an `accept` predicate
telling which radio send attempts return `ESP_OK`, and a list of file entries
for the card contents.  The SD medium, once mounted, is modelled as accepting
every create/write operation (the runtime I/O-error branches of
`Storage::createLogFile` are not exercised by any claim).
-/

namespace BoatGPS

/-- One cycle of outputs from the external NMEA decoder (TinyGPSPlus), as read
by `GPS::update` in `src/src/GPS.cpp`: whether `gps.location.isUpdated()`
fired, the location/speed/course values, the satellite count
(`gps.satellites.value()`, a 32-bit unsigned value), the fix age, the calendar
date/time fields together with their validity flags (`gps.date.isValid()`,
`gps.time.isValid()`), and the parser's `gps.location.isValid()` flag.
Latitude/longitude/speed/course are carried as opaque integers: no claim
computes with them, they are only copied. -/
structure DecoderReport where
  locationUpdated : Bool
  lat : Int
  lng : Int
  speedKnots : Int
  courseDeg : Int
  satellites : Nat
  ageMs : Nat
  year : Nat
  month : Nat
  day : Nat
  hour : Nat
  minute : Nat
  second : Nat
  dateValid : Bool
  timeValid : Bool
  locationValid : Bool
deriving DecidableEq

/-- The `GPSData` struct of `src/include/GPS.h`.  `satellites` is a `uint8_t`
(values `< 256`), `timestamp` a `uint32_t`, `year` a `uint16_t`,
`month`/`day`/`hour`/`minute`/`second` are `uint8_t`. -/
structure GPSData where
  latitude : Int
  longitude : Int
  speed : Int
  course : Int
  timestamp : Nat
  satellites : Nat
  valid : Bool
  age : Nat
  year : Nat
  month : Nat
  day : Nat
  hour : Nat
  minute : Nat
  second : Nat
deriving DecidableEq

/-- Leap-year predicate, as in the C library's calendar code. -/
def isLeap (y : Nat) : Bool := (y % 4 == 0 && y % 100 != 0) || y % 400 == 0

/-- Days of month `m` (1-based), the `DAYS_IN_MONTH` table of newlib with the
February leap adjustment. -/
def monthDays (leap : Bool) (m : Nat) : Nat :=
  match m with
  | 1 => 31
  | 2 => if leap then 29 else 28
  | 3 => 31
  | 4 => 30
  | 5 => 31
  | 6 => 30
  | 7 => 31
  | 8 => 31
  | 9 => 30
  | 10 => 31
  | 11 => 30
  | _ => 31

/-- Day count of the `mktime` call in `GPS::update`: days since 1970-01-01 for
calendar day `y`-`m`-`d`, computed the way newlib's `mktime` computes it — a
loop over the whole years since 1970 plus a loop over the elapsed months of
the current year plus `mday - 1`.  Faithful on the in-range domain
(`y ≥ 1970`, `1 ≤ m ≤ 12`); the C library's normalisation of out-of-range
fields is not modelled and every theorem below restricts to in-range fields. -/
def mktimeDays (y m d : Nat) : Nat :=
  ((List.range' 1970 (y - 1970)).foldl
      (fun acc yr => acc + (if isLeap yr then 366 else 365)) 0)
  + ((List.range' 1 (m - 1)).foldl
      (fun acc mo => acc + monthDays (isLeap y) mo) 0)
  + (d - 1)

/-- Embedding of `mktime(&gpsTimeinfo)` as called by `GPS::update`
(`src/src/GPS.cpp` lines 55–65), under the firmware's time configuration: the
code never sets `TZ`, so ESP-IDF's C library runs with the default `UTC`
timezone and no DST rule (`tm_isdst = -1` therefore has no effect).  The
`tm_year - 1900` / `tm_mon - 1` encodings cancel against `mktime`'s own
decoding and are elided. -/
def mktimeUTC (y m d h mi s : Nat) : Nat :=
  mktimeDays y m d * 86400 + h * 3600 + mi * 60 + s

/-- Modelled from the spec: the "standard civil-calendar-to-epoch conversion"
(spec §4.1/§8), written independently of the code as the standard
days-from-civil algorithm (era/year-of-era decomposition), interpreting the
calendar time as UTC with no daylight-saving adjustment.  Used as the
specification-side reference against which the code's `mktime` day count is
compared (claim C9). -/
def daysFromCivil (y m d : Nat) : Nat :=
  let yy := if m ≤ 2 then y - 1 else y
  let era := yy / 400
  let yoe := yy - era * 400
  let doy := (153 * (if 2 < m then m - 3 else m + 9) + 2) / 5 + (d - 1)
  let doe := yoe * 365 + yoe / 4 - yoe / 100 + doy
  era * 146097 + doe - 719468

/-- Modelled from the spec: epoch seconds of a UTC civil time, standard
conversion (see `daysFromCivil`). -/
def civilToEpoch (y m d h mi s : Nat) : Nat :=
  daysFromCivil y m d * 86400 + h * 3600 + mi * 60 + s

/-- The `GPS` constructor state (`GPS::GPS` sets `valid = false` and
`timestamp = 0`; the remaining fields are indeterminate in C++ and are taken
to be zero here — no claim depends on them). -/
def gpsData0 : GPSData :=
  { latitude := 0, longitude := 0, speed := 0, course := 0, timestamp := 0
    satellites := 0, valid := false, age := 0, year := 0, month := 0, day := 0
    hour := 0, minute := 0, second := 0 }

/-- `GPS::update` (`src/src/GPS.cpp` lines 28–85), for one update cycle whose
decoder outputs are `r`.  If the decoder reports no location update the state
is untouched.  Otherwise every field is recomputed: `satellites` narrows
`uint32_t → uint8_t` (`% 256`), the timestamp is recomputed by `mktime` from
the raw decoder date/time fields (regardless of their validity flags) and
stored into a `uint32_t`, the calendar fields are copied only when the
corresponding validity flag is set, and
`valid = gps.location.isValid() && (satellites >= 4)` where `satellites` is
the already-narrowed stored field. -/
def GPS.update (r : DecoderReport) (st : GPSData) : GPSData :=
  if r.locationUpdated then
    { latitude := r.lat
      longitude := r.lng
      speed := r.speedKnots
      course := r.courseDeg
      satellites := r.satellites % 256
      age := r.ageMs % 2 ^ 32
      timestamp := mktimeUTC r.year r.month r.day r.hour r.minute r.second % 2 ^ 32
      year := if r.dateValid then r.year % 2 ^ 16 else st.year
      month := if r.dateValid then r.month % 256 else st.month
      day := if r.dateValid then r.day % 256 else st.day
      hour := if r.timeValid then r.hour % 256 else st.hour
      minute := if r.timeValid then r.minute % 256 else st.minute
      second := if r.timeValid then r.second % 256 else st.second
      valid := r.locationValid && decide (4 ≤ r.satellites % 256) }
  else st

/-- `GPS::isValid` (`src/src/GPS.cpp` lines 91–94). -/
def GPS.isValid (st : GPSData) : Bool := st.valid

/-- A whole session of update cycles: fold `GPS::update` over the sequence of
decoder reports. -/
def GPS.runUpdates (st : GPSData) (rs : List DecoderReport) : GPSData :=
  rs.foldl (fun d r => GPS.update r d) st

/-- The `Communication` class state: `uint32_t sequenceCounter`, initialised
to 0 by the constructor (`src/src/Logger.cpp` line 90). -/
structure Communication where
  sequenceCounter : Nat
deriving DecidableEq

/-- A fresh `Communication` instance (constructor). -/
def commInit : Communication := ⟨0⟩

/-- `2^32`, the modulus of `uint32_t` arithmetic. -/
def U32 : Nat := 2 ^ 32

/-- The wire packet `GPSBroadcastPacket` of `src/include/Communication.h`.
The 18-byte `name` buffer is modelled as the string truncated to 17
characters (`strncpy` + forced null terminator). -/
structure GPSBroadcastPacket where
  messageType : Int
  name : String
  sequenceNumber : Nat
  gpsTimestamp : Nat
  latitude : Int
  longitude : Int
  speed : Int
  heading : Int
  satellites : Nat
deriving DecidableEq

/-- The retry loop of `Communication::broadcastGPSData` (`src/src/Logger.cpp`
lines 205–240): `for (attempt = 0; attempt <= retries; attempt++)` with a
`break` on the first `esp_now_send` that returns `ESP_OK`.  `attempt` is a
`uint8_t`, so the increment wraps at 256.  Arguments: `accept k` tells whether
the `k`-th send of this call (counting from 0) is accepted by the radio
layer, `a` is the current value of the `attempt` variable, `k` the number of
sends already made, and `fuel` bounds how many further sends are modelled.
Result `some (success, n)` means the loop exited with the given success flag
after `n` sends; `none` means the loop has not exited within `fuel` further
sends (for `retries = 255` with every send rejected it never exits, because
the wrapped `attempt` can never exceed `retries`). -/
def sendLoop (accept : Nat → Bool) (retries : Nat) : Nat → Nat → Nat → Option (Bool × Nat)
  | _, _, 0 => none
  | a, k, fuel + 1 =>
    if accept k then some (true, k + 1)
    else if (a + 1) % 256 ≤ retries then sendLoop accept retries ((a + 1) % 256) (k + 1) fuel
    else some (false, k + 1)

/-- `Communication::broadcastGPSData` (`src/src/Logger.cpp` lines 183–247):
increments the sequence counter (a `uint32_t`, hence `% 2^32`) exactly once,
builds the packet carrying the new counter value, then runs the retry loop.
The returned state always reflects the increment, which in the C++ code
happens before the loop; the first component is the loop result (see
`sendLoop` — `none` means the call has not returned within `fuel` sends). -/
def Communication.broadcastGPSData (c : Communication) (data : GPSData)
    (boatName : String) (retries : Nat) (accept : Nat → Bool) (fuel : Nat) :
    Option (Bool × Nat) × GPSBroadcastPacket × Communication :=
  let seq := (c.sequenceCounter + 1) % U32
  let packet : GPSBroadcastPacket :=
    { messageType := 1
      name := String.mk (boatName.toList.take 17)
      sequenceNumber := seq
      gpsTimestamp := data.timestamp
      latitude := data.latitude
      longitude := data.longitude
      speed := data.speed
      heading := data.course
      satellites := data.satellites }
  (sendLoop accept retries 0 0 fuel, packet, { sequenceCounter := seq })

/-- One `broadcast()` call of a session: the fix snapshot, the identifier, the
retry bound, the radio's behaviour for this call's send attempts, and the
modelling fuel. -/
structure CallSpec where
  data : GPSData
  boatName : String
  retries : Nat
  accept : Nat → Bool
  fuel : Nat

/-- State of the transport after a sequence of `broadcast()` calls. -/
def Communication.runCalls (c : Communication) (calls : List CallSpec) : Communication :=
  calls.foldl (fun c cs => (c.broadcastGPSData cs.data cs.boatName cs.retries cs.accept cs.fuel).2.2) c

/-- The sequence numbers assigned, call by call, to a sequence of
`broadcast()` calls starting from state `c` (each packet's
`sequenceNumber` field, in call order). -/
def seqTrace (c : Communication) : List CallSpec → List Nat
  | [] => []
  | cs :: rest =>
    let r := c.broadcastGPSData cs.data cs.boatName cs.retries cs.accept cs.fuel
    r.2.1.sequenceNumber :: seqTrace r.2.2 rest

/-- A directory entry of the SD card: file name, number of JSON records in
the file, file size in bytes. -/
structure LogFileEntry where
  name : String
  records : Nat
  size : Nat
deriving DecidableEq

/-- The `Storage` class state (`src/unnamed/part_002`): availability and
lazy-creation flags, running size/record counters, the current file name, the
cached MAC string — plus the modelled card contents (`fs`), which in the real
system live on the medium.  The `File logFile` handle is open exactly when
`fileCreated` is true (files are opened only by `createLogFile` and
`fileCreated` is set right after the first successful creation), so it is not
modelled separately. -/
structure Storage where
  sdAvailable : Bool
  fileCreated : Bool
  currentFileSize : Nat
  recordCount : Nat
  currentFileName : String
  macAddressStr : String
  fs : List LogFileEntry
deriving DecidableEq

/-- The rotation thresholds `MAX_FILE_SIZE` / `MAX_RECORDS_PER_FILE`
(collaborator-supplied constants, `static const` in `src/unnamed/part_002`). -/
structure StorageCfg where
  maxFileSize : Nat
  maxRecords : Nat
deriving DecidableEq

/-- The `Storage` constructor (`src/unnamed/part_006` lines 61–63) on a card
holding `card`. -/
def Storage.mk0 (card : List LogFileEntry) : Storage :=
  { sdAvailable := false, fileCreated := false, currentFileSize := 0
    recordCount := 0, currentFileName := "", macAddressStr := "", fs := card }

/-- `Storage::begin` (`src/unnamed/part_006` lines 84–116).  `mediumOK` is
whether `SD.begin(...)` succeeds (the external medium's response).  Returns
the C++ return value paired with the new state: `true` on every path. -/
def Storage.begin (enableSD mediumOK : Bool) (st : Storage) : Bool × Storage :=
  if !enableSD then (true, st)
  else if !mediumOK then (true, { st with sdAvailable := false })
  else (true, { st with sdAvailable := true })

/-- `Storage::isAvailable` (`src/unnamed/part_006` lines 186–188). -/
def Storage.isAvailable (st : Storage) : Bool := st.sdAvailable

/-- One hex digit, uppercase — the `%X` conversion. -/
def hexDigit (n : Nat) : Char :=
  if n < 10 then Char.ofNat (48 + n) else Char.ofNat (55 + n)

/-- `%02X` of a byte (`snprintf` in `Storage::createLogFile`). -/
def byteToHex (b : Nat) : String :=
  String.mk [hexDigit (b / 16 % 16), hexDigit (b % 16)]

/-- The MAC string built by `Storage::createLogFile`:
`"%02X%02X%02X%02X%02X%02X"` over the six bytes. -/
def macToStr (mac : List Nat) : String :=
  String.join (mac.map byteToHex)

/-- `%02d` (used for month/day/hour/minute/second in the file name). -/
def pad2 (n : Nat) : String :=
  if n < 10 then "0" ++ Nat.repr n else Nat.repr n

/-- `%04d` (used for the year in the file name). -/
def pad4 (n : Nat) : String :=
  if n < 10 then "000" ++ Nat.repr n
  else if n < 100 then "00" ++ Nat.repr n
  else if n < 1000 then "0" ++ Nat.repr n
  else Nat.repr n

/-- The file name stem `"/gps_" MAC "_" YYYY-MM-DD_HH-MM-SS` (without the
`".json"` extension) built by `Storage::createLogFile` from the MAC string
and the fix's calendar fields. -/
def fileStem (macStr : String) (d : GPSData) : String :=
  "/gps_" ++ macStr ++ "_" ++ pad4 d.year ++ "-" ++ pad2 d.month ++ "-" ++ pad2 d.day
    ++ "_" ++ pad2 d.hour ++ "-" ++ pad2 d.minute ++ "-" ++ pad2 d.second

/-- `SD.exists(filename)` over the modelled card contents. -/
def fsHas (fs : List LogFileEntry) (n : String) : Bool :=
  fs.any (fun e => e.name == n)

/-- The collision loop of `Storage::createLogFile` (`src/unnamed/part_006`
lines 266–275): `while (SD.exists(filename) && suffix < 100)` regenerate the
name with the current numeric suffix and increment the suffix.  `fuel` is a
structural bound; from the real entry point (`fuel = 100`, `suffix = 1`) the
fuel can never run out because the loop guard fails at `suffix = 100` at the
latest. -/
def resolveNameAux (fs : List LogFileEntry) (stem : String) : Nat → Nat → String → String
  | 0, _, name => name
  | fuel + 1, suffix, name =>
    if fsHas fs name && decide (suffix < 100) then
      resolveNameAux fs stem fuel (suffix + 1) (stem ++ "_" ++ Nat.repr suffix ++ ".json")
    else name

/-- The file name finally chosen by `Storage::createLogFile` for stem `stem`
on a card with contents `fs`. -/
def resolveName (fs : List LogFileEntry) (stem : String) : String :=
  resolveNameAux fs stem 100 1 (stem ++ ".json")

/-- `SD.open(filename, FILE_WRITE)` on the modelled card: the ESP32 core
defines `FILE_WRITE` as mode `"w"`, so an existing file of that name is
truncated to empty; otherwise a new empty file is created. -/
def fsOpenWrite (fs : List LogFileEntry) (n : String) : List LogFileEntry :=
  if fsHas fs n then fs.map (fun e => if e.name == n then ⟨n, 0, 0⟩ else e)
  else fs ++ [⟨n, 0, 0⟩]

/-- `Storage::createLogFile` (`src/unnamed/part_006` lines 243–288): close
the previous file (no effect on the modelled card — its entry already holds
the final stats), build the MAC string, build the timestamped name, resolve
collisions with a numeric suffix, open the file for writing, and reset the
running size/record counters.  The runtime open-failure branch is not
modelled (the mounted medium is modelled as accepting every operation). -/
def Storage.createLogFile (mac : List Nat) (d : GPSData) (st : Storage) : Storage :=
  let macStr := macToStr mac
  let name := resolveName st.fs (fileStem macStr d)
  { st with
    macAddressStr := macStr
    currentFileName := name
    fs := fsOpenWrite st.fs name
    currentFileSize := 0
    recordCount := 0 }

/-- Value of one hex digit character, `strtol` base-16 style (anything else
counts 0 — only ever applied to the hex strings the code itself produced). -/
def hexVal (c : Char) : Nat :=
  if 48 ≤ c.toNat ∧ c.toNat ≤ 57 then c.toNat - 48
  else if 65 ≤ c.toNat ∧ c.toNat ≤ 70 then c.toNat - 55
  else if 97 ≤ c.toNat ∧ c.toNat ≤ 102 then c.toNat - 87
  else 0

/-- The `strtol(hexByte, NULL, 16)` parsing of two characters of
`macAddressStr` in `Storage::rotateFile`. -/
def hexPair (c1 c2 : Char) : Nat := 16 * hexVal c1 + hexVal c2

/-- `Storage::rotateFile`'s extraction of the MAC bytes back out of
`macAddressStr` (out-of-range indexing yields the Arduino `String` null
character). -/
def strToMac (s : String) : List Nat :=
  (List.range 6).map fun i =>
    hexPair (s.toList.getD (2 * i) (Char.ofNat 0)) (s.toList.getD (2 * i + 1) (Char.ofNat 0))

/-- `Storage::rotateFile` (`src/unnamed/part_006` lines 299–313): close the
current file and create a new one named from the same MAC (round-tripped
through `macAddressStr`) and the triggering fix's timestamp. -/
def Storage.rotateFile (d : GPSData) (st : Storage) : Storage :=
  st.createLogFile (strToMac st.macAddressStr) d

/-- `Storage::needsRotation` (`src/unnamed/part_006` lines 226–228). -/
def Storage.needsRotation (cfg : StorageCfg) (st : Storage) : Bool :=
  (cfg.maxFileSize ≤ st.currentFileSize) || (cfg.maxRecords ≤ st.recordCount)

/-- Record count of the entry named `n` on the card (0 if absent). -/
def fsRecords (fs : List LogFileEntry) (n : String) : Nat :=
  match fs.find? (fun e => e.name == n) with
  | some e => e.records
  | none => 0

/-- Size of the entry named `n` on the card (0 if absent) — `logFile.size()`. -/
def fsSizeOf (fs : List LogFileEntry) (n : String) : Nat :=
  match fs.find? (fun e => e.name == n) with
  | some e => e.size
  | none => 0

/-- `Storage::writeGPSData` (`src/unnamed/part_006` lines 132–180): no-op
when the card is unavailable; lazily create the log file on the first call
with a valid fix; skip when no file exists yet; rotate when a threshold is
already met; then append one JSON record and refresh the running counters
from the file.  `recLen` is the byte length of this record's serialized JSON
line (including the newline) — the output size of the external serializer. -/
def Storage.writeGPSData (cfg : StorageCfg) (recLen : Nat) (d : GPSData)
    (mac : List Nat) (seq : Nat) (st : Storage) : Storage :=
  if st.sdAvailable = false then st
  else
    let st1 := if st.fileCreated = false ∧ d.valid = true then
        { st.createLogFile mac d with fileCreated := true }
      else st
    if st1.fileCreated = false then st1
    else
      let st2 := if Storage.needsRotation cfg st1 then st1.rotateFile d else st1
      let fs2 := st2.fs.map fun e =>
        if e.name == st2.currentFileName then ⟨e.name, e.records + 1, e.size + recLen⟩ else e
      { st2 with
        fs := fs2
        currentFileSize := fsSizeOf fs2 st2.currentFileName
        recordCount := st2.recordCount + 1 }

/-- One `write()` call of a session: the fix, the MAC, the sequence number
assigned at broadcast time, and the serialized record length. -/
structure WriteSpec where
  data : GPSData
  mac : List Nat
  seq : Nat
  recLen : Nat
deriving DecidableEq

/-- A sequence of `write()` calls folded over the store. -/
def Storage.runWrites (cfg : StorageCfg) (st : Storage) : List WriteSpec → Storage
  | [] => st
  | w :: ws => Storage.runWrites cfg (Storage.writeGPSData cfg w.recLen w.data w.mac w.seq st) ws

/-- The mutable globals of `loop()` in `src/unnamed/part_004` that the
broadcast branch touches. -/
structure CycleState where
  comm : Communication
  storage : Storage
  validPacketCount : Nat
  invalidPacketCount : Nat

/-- The broadcast branch of `loop()` (`src/unnamed/part_004` lines 343–384)
for one elapsed broadcast interval, on the SD-enabled build
(`ENABLE_SD_STORAGE = true`): if the fix is valid, broadcast it with 4
retries (the call terminates — fuel 5 covers the at most 5 sends); only when
the broadcast reports success are the serial log and the SD write performed,
the latter with the sequence number read back from the transport.  Returns
the new state, the broadcast success flag, and whether
`storage.writeGPSData` was invoked this cycle. -/
def loopBroadcastCycle (gpsData : GPSData) (boatName : String) (mac : List Nat)
    (accept : Nat → Bool) (cfg : StorageCfg) (recLen : Nat) (cst : CycleState) :
    CycleState × Bool × Bool :=
  if GPS.isValid gpsData then
    let res := cst.comm.broadcastGPSData gpsData boatName 4 accept 5
    let comm2 := res.2.2
    let success := (res.1.map Prod.fst).getD false
    if success then
      let seqNum := comm2.sequenceCounter
      let storage2 := Storage.writeGPSData cfg recLen gpsData mac seqNum cst.storage
      (⟨comm2, storage2, cst.validPacketCount + 1, cst.invalidPacketCount⟩, true, true)
    else
      (⟨comm2, cst.storage, cst.validPacketCount, cst.invalidPacketCount⟩, false, false)
  else
    (⟨cst.comm, cst.storage, cst.validPacketCount, cst.invalidPacketCount + 1⟩, false, false)

/-- C1, counterexample to the claim as stated: a single update cycle whose
location update is parser-valid with a reported satellite count of 256
(≥ 4) nevertheless leaves `isValid()` false, because the count is narrowed
to the `uint8_t` field (256 → 0) before the `>= 4` comparison. -/
def reportSat256 : DecoderReport :=
  ⟨true, 0, 0, 0, 0, 256, 0, 2025, 1, 1, 0, 0, 0, true, true, true⟩

/-- C9, witness: the theorem applied to a concrete report
(2025-11-25 14:30:00, with both validity flags set). -/
def reportW : DecoderReport :=
  ⟨true, 1, 2, 3, 4, 8, 0, 2025, 11, 25, 14, 30, 0, true, true, true⟩

/-- A concrete `broadcast()` call (accepted on the first attempt). -/
def callA : CallSpec := ⟨gpsData0, "BOAT1", 0, fun _ => true, 1⟩

/-- The candidate name with numeric suffix `k` generated inside the collision
loop of `Storage::createLogFile`. -/
def candName (stem : String) (k : Nat) : String :=
  stem ++ "_" ++ Nat.repr k ++ ".json"

/-- The name suffixes of the candidates checked by the collision loop (base
name plus numeric suffixes 1–98). -/
def tailsList : List String :=
  ".json" :: (List.range 98).map (fun i => "_" ++ (Nat.repr (i + 1) ++ ".json"))

/-- The candidate names the collision loop is guaranteed to have found
existing whenever it returns a name that still exists. -/
def candNamesList (stem : String) : List String :=
  (stem ++ ".json") :: (List.range 98).map (fun i => candName stem (i + 1))

/-- Concrete MAC address bytes D0:CF:13:0F:D9:DC. -/
def macX : List Nat := [208, 207, 19, 15, 217, 220]

/-- A concrete valid fix (2025-11-25 14:30:00). -/
def dX : GPSData :=
  { gpsData0 with
    valid := true
    satellites := 8
    year := 2025
    month := 11
    day := 25
    hour := 14
    minute := 30
    second := 0 }

/-- The file-name stem the store derives for `macX`/`dX`. -/
def stemX : String := fileStem (macToStr macX) dX

/-- A card already holding the base name and all 99 suffixed variants for
`stemX` — the worst case for the collision loop. -/
def badCard : List LogFileEntry :=
  ⟨stemX ++ ".json", 5, 100⟩ ::
    (List.range 99).map (fun k => ⟨candName stemX (k + 1), 5, 100⟩)

/-- A mounted store whose card is `badCard`. -/
def stBad : Storage := { Storage.mk0 badCard with sdAvailable := true }

/-- The cycle-state at boot on the SD build: fresh transport, mounted store
with an empty card, zero counters. -/
def cst0 : CycleState := ⟨commInit, { Storage.mk0 [] with sdAvailable := true }, 0, 0⟩

end BoatGPS

namespace BoatGPS

/-! ## Fix acquisition: validity (claim C1) -/

theorem runUpdates_concat (st : GPSData) (l : List DecoderReport) (r : DecoderReport) :
    GPS.runUpdates st (l ++ [r]) = GPS.update r (GPS.runUpdates st l) := by
  unfold GPS.runUpdates
  rw [List.foldl_append]
  rfl

theorem update_valid_of_updated (r : DecoderReport) (st : GPSData)
    (h : r.locationUpdated = true) :
    (GPS.update r st).valid = (r.locationValid && decide (4 ≤ r.satellites % 256)) := by
  simp [GPS.update, h]

theorem update_of_not_updated (r : DecoderReport) (st : GPSData)
    (h : r.locationUpdated = false) : GPS.update r st = st := by
  simp [GPS.update, h]

/-- C1, amended: after any sequence of update cycles, `isValid()` returns
true iff the most recent cycle in which the decoder reported a location
update had the position marked valid by the parser AND a satellite count
whose low byte (the count is stored into a `uint8_t`, i.e. reduced mod 256)
is at least 4; cycles without a location update leave the flag unchanged
(and it starts out false). -/
theorem C1_theorem (st : GPSData) (rs : List DecoderReport) :
    GPS.isValid (GPS.runUpdates st rs) =
      (match (rs.filter (fun r => r.locationUpdated)).getLast? with
       | some r => r.locationValid && decide (4 ≤ r.satellites % 256)
       | none => GPS.isValid st) := by
  induction rs using List.reverseRecOn with
  | nil => rfl
  | append_singleton l r ih =>
    rw [runUpdates_concat, List.filter_append]
    by_cases h : r.locationUpdated = true
    · rw [GPS.isValid, update_valid_of_updated r _ h]
      simp [h, List.getLast?_concat]
    · rw [update_of_not_updated r _ (by simpa using h), ih]
      simp [h]

theorem C1_counterexample :
    GPS.isValid (GPS.runUpdates gpsData0 [reportSat256]) = false ∧
    reportSat256.locationUpdated = true ∧
    reportSat256.locationValid = true ∧
    4 ≤ reportSat256.satellites := by
  refine ⟨?_, rfl, rfl, by decide⟩
  rfl

/-! ## Fix acquisition: epoch conversion (claim C9) -/

theorem mktimeDays_shift (y m d : Nat) :
    mktimeDays y m d = mktimeDays y m 1 + (d - 1) := by
  unfold mktimeDays
  omega

theorem daysFromCivil_shift (y m d : Nat) (hy1 : 2000 ≤ y) (hy2 : y < 2038) :
    daysFromCivil y m d = daysFromCivil y m 1 + (d - 1) := by
  unfold daysFromCivil
  by_cases hm : m ≤ 2 <;> simp only [hm, if_pos, if_neg, ite_true, ite_false] <;> omega

theorem mktimeDays_base_eq_civil :
    ∀ a < 38, ∀ b < 12, mktimeDays (2000 + a) (b + 1) 1 = daysFromCivil (2000 + a) (b + 1) 1 := by
  decide

theorem mktimeUTC_eq_civilToEpoch (y m d h mi s : Nat) (hy1 : 2000 ≤ y) (hy2 : y < 2038)
    (hm1 : 1 ≤ m) (hm2 : m ≤ 12) :
    mktimeUTC y m d h mi s = civilToEpoch y m d h mi s := by
  have h3 := mktimeDays_base_eq_civil (y - 2000) (by omega) (m - 1) (by omega)
  have hy : 2000 + (y - 2000) = y := by omega
  have hm : (m - 1) + 1 = m := by omega
  rw [hy, hm] at h3
  unfold mktimeUTC civilToEpoch
  rw [mktimeDays_shift, daysFromCivil_shift y m d hy1 hy2, h3]

/-- C9: whenever the decoder reports an updated location, `GPS::update`
recomputes the fix's epoch timestamp from the decoder's raw calendar
date/time fields (independently of their validity flags) by the standard
civil-calendar-to-epoch conversion, interpreting them as UTC with no
daylight-saving adjustment — stated on the in-range calendar domain
(year 2000–2037, month 1–12), where the C library's `mktime` under the
firmware's default UTC timezone is exactly that conversion. -/
theorem C9_theorem (r : DecoderReport) (st : GPSData) (hupd : r.locationUpdated = true)
    (hy1 : 2000 ≤ r.year) (hy2 : r.year < 2038) (hm1 : 1 ≤ r.month) (hm2 : r.month ≤ 12) :
    (GPS.update r st).timestamp =
      civilToEpoch r.year r.month r.day r.hour r.minute r.second % 2 ^ 32 := by
  simp [GPS.update, hupd,
    mktimeUTC_eq_civilToEpoch r.year r.month r.day r.hour r.minute r.second hy1 hy2 hm1 hm2]

theorem C9_witness :
    (GPS.update reportW gpsData0).timestamp =
      civilToEpoch reportW.year reportW.month reportW.day
        reportW.hour reportW.minute reportW.second % 2 ^ 32 :=
  C9_theorem reportW gpsData0 rfl (by decide) (by decide) (by decide) (by decide)

/-! ## Log store: permanent degradation and `begin` result (claims C6, C10) -/

theorem write_unavailable (cfg : StorageCfg) (L : Nat) (d : GPSData) (mac : List Nat)
    (s : Nat) (st : Storage) (h : st.sdAvailable = false) :
    Storage.writeGPSData cfg L d mac s st = st := by
  unfold Storage.writeGPSData
  rw [if_pos h]

theorem runWrites_unavailable (cfg : StorageCfg) (ws : List WriteSpec) (st : Storage)
    (h : st.sdAvailable = false) : Storage.runWrites cfg st ws = st := by
  induction ws with
  | nil => rfl
  | cons w ws ih =>
    rw [Storage.runWrites, write_unavailable cfg w.recLen w.data w.mac w.seq st h, ih]

/-- C6: if the medium reports unavailable at `begin(true)`, then for the
whole remainder of the session every `write()` call (and every prefix of the
write sequence) leaves the state — including the card contents — completely
unchanged, and `isAvailable()` returns false. -/
theorem C6_theorem (cfg : StorageCfg) (card : List LogFileEntry) (ws : List WriteSpec)
    (n : Nat) :
    Storage.runWrites cfg (Storage.begin true false (Storage.mk0 card)).2 ws =
      (Storage.begin true false (Storage.mk0 card)).2 ∧
    Storage.runWrites cfg (Storage.begin true false (Storage.mk0 card)).2 (ws.take n) =
      (Storage.begin true false (Storage.mk0 card)).2 ∧
    Storage.isAvailable (Storage.begin true false (Storage.mk0 card)).2 = false ∧
    ((Storage.begin true false (Storage.mk0 card)).2).fs = card := by
  refine ⟨?_, ?_, rfl, rfl⟩ <;>
    exact runWrites_unavailable cfg _ _ rfl

/-- C10: `Storage::begin` returns true on every execution path (storage
disabled, mount failure, mount success), so its return value never signals
unavailability; the mount outcome is observable only through
`isAvailable()`, and a disabled `begin` leaves the state untouched. -/
theorem C10_theorem (enableSD mediumOK : Bool) (st : Storage) :
    (Storage.begin enableSD mediumOK st).1 = true ∧
    (Storage.begin true mediumOK st).2.isAvailable = mediumOK ∧
    (Storage.begin false mediumOK st).2 = st := by
  cases enableSD <;> cases mediumOK <;>
    simp [Storage.begin, Storage.isAvailable]

end BoatGPS

namespace BoatGPS

/-! ## Broadcast transport: sequence numbering (claim C2) -/

theorem seqTrace_formula (calls : List CallSpec) :
    ∀ c : Communication,
    seqTrace c calls =
      (List.range calls.length).map (fun i => (c.sequenceCounter + i + 1) % U32) := by
  induction calls with
  | nil => intro c; rfl
  | cons cs rest ih =>
    intro c
    have hstep : seqTrace c (cs :: rest) =
        ((c.sequenceCounter + 1) % U32) ::
          seqTrace ⟨(c.sequenceCounter + 1) % U32⟩ rest := rfl
    rw [hstep, ih ⟨(c.sequenceCounter + 1) % U32⟩, List.length_cons,
      List.range_succ_eq_map, List.map_cons, List.map_map]
    refine congrArg₂ (· :: ·) rfl (List.map_congr_left ?_)
    intro i _
    show ((c.sequenceCounter + 1) % U32 + i + 1) % U32
        = (c.sequenceCounter + Nat.succ i + 1) % U32
    calc ((c.sequenceCounter + 1) % U32 + i + 1) % U32
        = ((c.sequenceCounter + 1) % U32 + (i + 1)) % U32 := by rw [Nat.add_assoc]
      _ = ((c.sequenceCounter + 1) + (i + 1)) % U32 := Nat.mod_add_mod _ _ _
      _ = (c.sequenceCounter + Nat.succ i + 1) % U32 := by
            rw [show c.sequenceCounter + 1 + (i + 1) = c.sequenceCounter + Nat.succ i + 1 from by omega]

/-- C2, amended: in any session, the `i`-th `broadcast()` call (0-based, over
any per-call retry counts and radio behaviours) is assigned the sequence
number `(i + 1) % 2^32`: the first call gets 1 and each later call gets
exactly one more than its predecessor modulo 2^32 — the counter is a
`uint32_t` and wraps to 0 on the call after sequence number `2^32 - 1`; it is
incremented exactly once per call, never per retry. -/
theorem C2_theorem (calls : List CallSpec) (i : Nat) :
    (seqTrace commInit calls)[i]? =
      (if i < calls.length then some ((i + 1) % U32) else none) := by
  rw [seqTrace_formula]
  by_cases h : i < calls.length
  · rw [if_pos h, List.getElem?_map, List.getElem?_range h]
    show some ((0 + i + 1) % U32) = some ((i + 1) % U32)
    rw [Nat.zero_add]
  · rw [if_neg h, List.getElem?_eq_none]
    simpa using h

/-- C2, counterexample to the claim as stated: in the session consisting of
`2^32` identical `broadcast()` calls, the last call is assigned sequence
number 0 while its predecessor was assigned `2^32 - 1` — the `uint32_t`
counter wraps, so the assigned number is not "exactly one greater than the
previous call's" there. -/
theorem C2_counterexample :
    (seqTrace commInit (List.replicate (2 ^ 32) callA))[2 ^ 32 - 1]? = some 0 ∧
    (seqTrace commInit (List.replicate (2 ^ 32) callA))[2 ^ 32 - 2]? = some (2 ^ 32 - 1) ∧
    (0 : Nat) ≠ (2 ^ 32 - 1) + 1 := by
  rw [seqTrace_formula]
  refine ⟨?_, ?_, by norm_num⟩
  · rw [List.getElem?_map, List.length_replicate,
      List.getElem?_range (by norm_num : 2 ^ 32 - 1 < 2 ^ 32)]
    show some ((0 + (2 ^ 32 - 1) + 1) % U32) = some 0
    norm_num [U32]
  · rw [List.getElem?_map, List.length_replicate,
      List.getElem?_range (by norm_num : 2 ^ 32 - 2 < 2 ^ 32)]
    show some ((0 + (2 ^ 32 - 2) + 1) % U32) = some (2 ^ 32 - 1)
    rw [Nat.zero_add, show 2 ^ 32 - 2 + 1 = 2 ^ 32 - 1 from by norm_num]
    rw [U32, Nat.mod_eq_of_lt (by norm_num)]

/-! ## Broadcast transport: retry loop (claim C3) -/

theorem sendLoop_constFalse255 : ∀ fuel a k, sendLoop (fun _ => false) 255 a k fuel = none := by
  intro fuel
  induction fuel with
  | zero => intro a k; rfl
  | succ fuel ih =>
    intro a k
    have h : (a + 1) % 256 ≤ 255 := Nat.le_of_lt_succ (Nat.mod_lt _ (by norm_num))
    simp only [sendLoop]
    simp [h, ih]

theorem sendLoop_run (accept : Nat → Bool) (retries : Nat) (h255 : retries ≤ 254) :
    ∀ fuel a, a ≤ retries → retries - a < fuel →
    sendLoop accept retries a a fuel =
      some (match List.findIdx? accept (List.range' a (retries + 1 - a)) a with
            | some i => (true, i + 1)
            | none => (false, retries + 1)) := by
  intro fuel
  induction fuel with
  | zero => intro a ha hf; omega
  | succ fuel ih =>
    intro a ha hf
    have hn : retries + 1 - a = (retries - a) + 1 := by omega
    rw [hn, List.range'_succ, List.findIdx?_cons]
    simp only [sendLoop]
    by_cases hacc : accept a = true
    · simp [hacc]
    · have hacc' : accept a = false := by simpa using hacc
      rw [hacc']
      simp only [Bool.false_eq_true, if_false]
      by_cases hlt : a < retries
      · have e1 : (a + 1) % 256 = a + 1 := Nat.mod_eq_of_lt (by omega)
        rw [e1, if_pos (by omega)]
        have hrec := ih (a + 1) (by omega) (by omega)
        rw [show retries + 1 - (a + 1) = retries - a from by omega] at hrec
        rw [hrec]
      · have ha2 : a = retries := by omega
        have e1 : (a + 1) % 256 = a + 1 := Nat.mod_eq_of_lt (by omega)
        rw [e1, if_neg (by omega)]
        rw [show retries - a = 0 from by omega]
        simp [List.findIdx?_nil, ha2]

theorem findIdx?_match_any (l : List Nat) (p : Nat → Bool) :
    (match List.findIdx? p l with
     | some _ => true
     | none => false) = l.any p := by
  have h := @List.findIdx?_isSome Nat l p
  cases hfi : List.findIdx? p l <;> rw [hfi] at h <;> simpa using h.symm

/-- C3, amended: for `maxRetries ≤ 254`, `broadcast()` returns success iff at
least one of the `1 + maxRetries` transport-layer send attempts is accepted,
attempts stop at the first acceptance (the attempt count equals one more than
the index of the first accepted attempt, or `1 + maxRetries` when all are
rejected — in particular exactly one attempt when `maxRetries = 0`); for
`maxRetries = 255` with every attempt rejected the call never returns,
because the `uint8_t` attempt counter wraps and the loop guard
`attempt <= retries` never fails. -/
theorem C3_theorem (c : Communication) (data : GPSData) (bn : String)
    (accept : Nat → Bool) (retries fuel : Nat)
    (h1 : retries ≤ 254) (h2 : retries < fuel) :
    ((c.broadcastGPSData data bn retries accept fuel).1 =
      some (match (List.range (retries + 1)).findIdx? accept with
            | some i => (true, i + 1)
            | none => (false, retries + 1))) ∧
    ((c.broadcastGPSData data bn retries accept fuel).1.map Prod.fst =
      some ((List.range (retries + 1)).any accept)) ∧
    (∀ f, (c.broadcastGPSData data bn 255 (fun _ => false) f).1 = none) := by
  have hrun := sendLoop_run accept retries h1 fuel 0 (Nat.zero_le _) (by omega)
  rw [Nat.sub_zero, ← List.range_eq_range'] at hrun
  have hb : (c.broadcastGPSData data bn retries accept fuel).1 =
      sendLoop accept retries 0 0 fuel := rfl
  refine ⟨?_, ?_, fun f => sendLoop_constFalse255 f 0 0⟩
  · rw [hb]
    exact hrun
  · rw [hb, hrun]
    have hany := findIdx?_match_any (List.range (retries + 1)) accept
    cases hfi : List.findIdx? accept (List.range (retries + 1)) 0 with
    | none =>
        rw [hfi] at hany
        simp [← hany]
    | some i =>
        rw [hfi] at hany
        simp [← hany]

set_option maxRecDepth 8192 in
/-- C3, witness: the amended theorem applied at `maxRetries = 2` with the
radio accepting the second send. -/
theorem C3_witness :
    ((commInit.broadcastGPSData gpsData0 "B" 2 (fun k => k == 1) 3).1 =
      some (match (List.range (2 + 1)).findIdx? (fun k => k == 1) with
            | some i => (true, i + 1)
            | none => (false, 2 + 1))) ∧
    ((commInit.broadcastGPSData gpsData0 "B" 2 (fun k => k == 1) 3).1.map Prod.fst =
      some ((List.range (2 + 1)).any (fun k => k == 1))) ∧
    (∀ f, (commInit.broadcastGPSData gpsData0 "B" 255 (fun _ => false) f).1 = none) :=
  C3_theorem commInit gpsData0 "B" (fun k => k == 1) 2 3 (by norm_num) (by norm_num)

theorem broadcast_fst (c : Communication) (data : GPSData) (bn : String)
    (accept : Nat → Bool) (retries fuel : Nat) :
    (c.broadcastGPSData data bn retries accept fuel).1 = sendLoop accept retries 0 0 fuel := rfl

/-- C3, counterexample to the claim as stated: at `maxRetries = 255` with
every send rejected, the call has not returned even after fuel for 1000
sends — the claim demands that it return failure after the `1 + 255`
attempts, but the `uint8_t` attempt counter wraps and the loop never exits. -/
theorem C3_counterexample :
    (commInit.broadcastGPSData gpsData0 "BOAT1" 255 (fun _ => false) 1000).1 = none := by
  rw [broadcast_fst]
  exact sendLoop_constFalse255 1000 0 0

end BoatGPS

namespace BoatGPS

/-! ## Log store: file-name collision handling -/

theorem string_append_cancel (a : String) : ∀ {b c : String}, a ++ b = a ++ c → b = c := by
  intro b c h
  apply String.ext
  have hd := congrArg String.data h
  rw [String.data_append, String.data_append] at hd
  exact List.append_cancel_left hd

theorem candName_def (stem : String) (k : Nat) :
    stem ++ "_" ++ Nat.repr k ++ ".json" = candName stem k := rfl

theorem candName_eq (stem : String) (k : Nat) :
    candName stem k = stem ++ ("_" ++ (Nat.repr k ++ ".json")) := by
  simp [candName, String.append_assoc]

theorem tailsList_nodup : tailsList.Nodup := by decide

theorem candNamesList_eq_map (stem : String) :
    candNamesList stem = tailsList.map (fun t => stem ++ t) := by
  simp only [candNamesList, tailsList, List.map_cons, List.map_map]
  refine congrArg₂ (· :: ·) rfl (List.map_congr_left ?_)
  intro i _
  exact candName_eq stem (i + 1)

theorem candNamesList_nodup (stem : String) : (candNamesList stem).Nodup := by
  rw [candNamesList_eq_map]
  exact tailsList_nodup.map (fun b c h => string_append_cancel stem h)

theorem candNamesList_length (stem : String) : (candNamesList stem).length = 99 := by
  simp [candNamesList]

theorem fsHas_iff (fs : List LogFileEntry) (n : String) :
    fsHas fs n = true ↔ n ∈ fs.map (fun e => e.name) := by
  simp only [fsHas, List.any_eq_true, List.mem_map]
  constructor
  · rintro ⟨e, he, hbeq⟩
    exact ⟨e, he, by simpa using hbeq⟩
  · rintro ⟨e, he, hname⟩
    exact ⟨e, he, by simp [hname]⟩

theorem resolveNameAux_exhaust (fs : List LogFileEntry) (stem : String) :
    ∀ fuel suffix name, suffix + fuel = 101 →
    fsHas fs (resolveNameAux fs stem fuel suffix name) = true →
    fsHas fs name = true ∧
    ∀ k, suffix ≤ k → k ≤ 98 → fsHas fs (candName stem k) = true := by
  intro fuel
  induction fuel with
  | zero =>
    intro suffix name hinv h
    refine ⟨by simpa [resolveNameAux] using h, fun k hk1 hk2 => ?_⟩
    exact ((by omega : False)).elim
  | succ fuel ih =>
    intro suffix name hinv h
    rw [resolveNameAux] at h
    by_cases hc : (fsHas fs name && decide (suffix < 100)) = true
    · rw [if_pos hc] at h
      obtain ⟨hres, hall⟩ := ih (suffix + 1) _ (by omega) h
      have hname : fsHas fs name = true := by
        simp only [Bool.and_eq_true] at hc
        exact hc.1
      refine ⟨hname, fun k hk1 hk2 => ?_⟩
      rcases Nat.eq_or_lt_of_le hk1 with heq | hlt
      · subst heq
        exact hres
      · exact hall k (by omega) hk2
    · rw [if_neg hc] at h
      have hs : ¬ suffix < 100 := by
        intro hlt
        exact hc (by simp [h, hlt])
      refine ⟨h, fun k hk1 hk2 => ?_⟩
      exact ((by omega : False)).elim

theorem resolveNameAux_shape (fs : List LogFileEntry) (stem : String) :
    ∀ fuel suffix name,
    resolveNameAux fs stem fuel suffix name = name ∨
    ∃ k, suffix ≤ k ∧ k < 100 ∧ resolveNameAux fs stem fuel suffix name = candName stem k := by
  intro fuel
  induction fuel with
  | zero => intro suffix name; left; rfl
  | succ fuel ih =>
    intro suffix name
    rw [resolveNameAux]
    by_cases hc : (fsHas fs name && decide (suffix < 100)) = true
    · rw [if_pos hc]
      have hs : suffix < 100 := by
        simp only [Bool.and_eq_true, decide_eq_true_eq] at hc
        exact hc.2
      rw [candName_def]
      rcases ih (suffix + 1) (candName stem suffix) with h | ⟨k, hk1, hk2, h⟩
      · right
        exact ⟨suffix, Nat.le_refl _, hs, h⟩
      · right
        exact ⟨k, by omega, hk2, h⟩
    · rw [if_neg hc]
      left
      rfl

theorem resolveName_fresh (fs : List LogFileEntry) (stem : String) (hfs : fs.length ≤ 98) :
    fsHas fs (resolveName fs stem) = false := by
  by_contra hc
  have htrue : fsHas fs (resolveName fs stem) = true := by
    cases hv : fsHas fs (resolveName fs stem)
    · exact absurd hv hc
    · rfl
  obtain ⟨hbase, hall⟩ :=
    resolveNameAux_exhaust fs stem 100 1 (stem ++ ".json") (by omega) htrue
  have hsub : candNamesList stem ⊆ fs.map (fun e => e.name) := by
    intro x hx
    rcases List.mem_cons.mp hx with hx0 | hx1
    · subst hx0
      exact (fsHas_iff _ _).mp hbase
    · obtain ⟨i, hi, hx2⟩ := List.mem_map.mp hx1
      have hi' : i < 98 := List.mem_range.mp hi
      subst hx2
      exact (fsHas_iff _ _).mp (hall (i + 1) (by omega) (by omega))
  have hle := ((candNamesList_nodup stem).subperm hsub).length_le
  rw [candNamesList_length, List.length_map] at hle
  omega

theorem resolveName_shape (fs : List LogFileEntry) (stem : String) :
    resolveName fs stem = stem ++ ".json" ∨
    ∃ k, 1 ≤ k ∧ k < 100 ∧ resolveName fs stem = candName stem k :=
  resolveNameAux_shape fs stem 100 1 (stem ++ ".json")


/-! ## Log store: single-write characterisations -/

theorem map_upd_of_fresh (fs : List LogFileEntry) (n : String)
    (f : LogFileEntry → LogFileEntry) (h : fsHas fs n = false) :
    (fs.map fun e => if e.name == n then f e else e) = fs := by
  induction fs with
  | nil => rfl
  | cons a fs ih =>
    simp only [fsHas, List.any_cons, Bool.or_eq_false_iff] at h
    simp only [List.map_cons, h.1, Bool.false_eq_true, if_false]
    rw [ih h.2]

theorem find?_append_fresh (A : List LogFileEntry) (e : LogFileEntry)
    (h : fsHas A e.name = false) :
    (A ++ [e]).find? (fun x => x.name == e.name) = some e := by
  induction A with
  | nil => simp [List.find?]
  | cons a A ih =>
    simp only [fsHas, List.any_cons, Bool.or_eq_false_iff] at h
    simp only [List.cons_append, List.find?, h.1]
    exact ih h.2

theorem createLogFile_of_fresh (mac : List Nat) (d : GPSData) (st : Storage)
    (hfs : st.fs.length ≤ 98) :
    st.createLogFile mac d =
      { st with
        macAddressStr := macToStr mac
        currentFileName := resolveName st.fs (fileStem (macToStr mac) d)
        fs := st.fs ++ [⟨resolveName st.fs (fileStem (macToStr mac) d), 0, 0⟩]
        currentFileSize := 0
        recordCount := 0 } := by
  have hfresh := resolveName_fresh st.fs (fileStem (macToStr mac) d) hfs
  simp only [Storage.createLogFile, fsOpenWrite, hfresh, Bool.false_eq_true, if_false]

theorem write_first (cfg : StorageCfg) (L : Nat) (d : GPSData) (mac : List Nat) (s : Nat)
    (st : Storage) (hsd : st.sdAvailable = true) (hfc : st.fileCreated = false)
    (hv : d.valid = true) (hfs : st.fs.length ≤ 98)
    (hms : 0 < cfg.maxFileSize) (hmr : 0 < cfg.maxRecords) :
    Storage.writeGPSData cfg L d mac s st =
      { st with
        fileCreated := true
        macAddressStr := macToStr mac
        currentFileName := resolveName st.fs (fileStem (macToStr mac) d)
        fs := st.fs ++ [⟨resolveName st.fs (fileStem (macToStr mac) d), 1, L⟩]
        currentFileSize := L
        recordCount := 1 } := by
  have hfresh := resolveName_fresh st.fs (fileStem (macToStr mac) d) hfs
  have h1 : ¬ (cfg.maxFileSize ≤ 0) := by omega
  have h2 : ¬ (cfg.maxRecords ≤ 0) := by omega
  simp only [Storage.writeGPSData, hsd, hfc, hv, and_self, if_true, Bool.true_eq_false,
    if_false, ite_true, ite_false, createLogFile_of_fresh mac d st hfs,
    Storage.needsRotation, decide_eq_true_eq, Bool.or_eq_true, h1, h2, or_self,
    List.map_append, List.map_cons, List.map_nil, beq_self_eq_true, if_true,
    map_upd_of_fresh st.fs _ _ hfresh, Nat.zero_add, fsSizeOf,
    find?_append_fresh st.fs ⟨resolveName st.fs (fileStem (macToStr mac) d), 1, L⟩ hfresh]

theorem write_steady (cfg : StorageCfg) (L : Nat) (d : GPSData) (mac : List Nat) (s : Nat)
    (A : List LogFileEntry) (e : LogFileEntry) (st : Storage)
    (hsd : st.sdAvailable = true) (hfc : st.fileCreated = true)
    (hfs : st.fs = A ++ [e]) (hcur : st.currentFileName = e.name)
    (hA : fsHas A e.name = false)
    (hrot : Storage.needsRotation cfg st = false) :
    Storage.writeGPSData cfg L d mac s st =
      { st with
        fs := A ++ [⟨e.name, e.records + 1, e.size + L⟩]
        currentFileSize := e.size + L
        recordCount := st.recordCount + 1 } := by
  simp only [Storage.writeGPSData, hsd, hfc, hrot, hfs, hcur, false_and, and_false,
    Bool.true_eq_false, Bool.false_eq_true, if_false, ite_false, ite_true,
    List.map_append, List.map_cons, List.map_nil, beq_self_eq_true, if_true, fsSizeOf,
    map_upd_of_fresh A _ _ hA,
    find?_append_fresh A ⟨e.name, e.records + 1, e.size + L⟩ hA]

theorem write_rotate (cfg : StorageCfg) (L : Nat) (d : GPSData) (mac : List Nat) (s : Nat)
    (st : Storage)
    (hsd : st.sdAvailable = true) (hfc : st.fileCreated = true)
    (hfs : st.fs.length ≤ 98)
    (hrot : Storage.needsRotation cfg st = true)
    (hms : 0 < cfg.maxFileSize) (hmr : 0 < cfg.maxRecords) :
    Storage.writeGPSData cfg L d mac s st =
      { st with
        macAddressStr := macToStr (strToMac st.macAddressStr)
        currentFileName :=
          resolveName st.fs (fileStem (macToStr (strToMac st.macAddressStr)) d)
        fs := st.fs ++
          [⟨resolveName st.fs (fileStem (macToStr (strToMac st.macAddressStr)) d), 1, L⟩]
        currentFileSize := L
        recordCount := 1 } := by
  have hfresh :=
    resolveName_fresh st.fs (fileStem (macToStr (strToMac st.macAddressStr)) d) hfs
  simp only [Storage.writeGPSData, hsd, hfc, hrot, false_and, and_false,
    Bool.true_eq_false, Bool.false_eq_true, if_false, ite_false, ite_true, if_true,
    Storage.rotateFile, createLogFile_of_fresh _ d st hfs,
    List.map_append, List.map_cons, List.map_nil, beq_self_eq_true, fsSizeOf,
    Nat.zero_add, map_upd_of_fresh st.fs _ _ hfresh,
    find?_append_fresh st.fs
      ⟨resolveName st.fs (fileStem (macToStr (strToMac st.macAddressStr)) d), 1, L⟩ hfresh]


/-! ## Claim C7: collision suffixes -/

/-- C7, amended: whenever creation/rotation would generate a file name that
already exists on a card holding at most 98 files, the chosen name carries a
numeric suffix, the chosen name does not exist on the card, and the creation
appends one fresh file leaving every existing file untouched; the guarantee
is limited — with the base name and all 99 suffixed variants present the
loop gives up and reuses (truncates) an existing file (see the
counterexample). -/
theorem C7_theorem (st : Storage) (mac : List Nat) (d : GPSData)
    (hfs : st.fs.length ≤ 98) :
    fsHas st.fs (resolveName st.fs (fileStem (macToStr mac) d)) = false ∧
    (st.createLogFile mac d).fs =
      st.fs ++ [⟨resolveName st.fs (fileStem (macToStr mac) d), 0, 0⟩] ∧
    (fsHas st.fs (fileStem (macToStr mac) d ++ ".json") = true →
      resolveName st.fs (fileStem (macToStr mac) d) ≠ fileStem (macToStr mac) d ++ ".json") ∧
    (resolveName st.fs (fileStem (macToStr mac) d) = fileStem (macToStr mac) d ++ ".json" ∨
      ∃ k, 1 ≤ k ∧ k < 100 ∧
        resolveName st.fs (fileStem (macToStr mac) d) =
          candName (fileStem (macToStr mac) d) k) := by
  have hfresh := resolveName_fresh st.fs (fileStem (macToStr mac) d) hfs
  refine ⟨hfresh, ?_, ?_, resolveName_shape _ _⟩
  · rw [createLogFile_of_fresh mac d st hfs]
  · intro hbase heq
    rw [heq] at hfresh
    rw [hfresh] at hbase
    cases hbase

/-- C7, witness: the amended theorem at a mounted store with an empty card. -/
theorem C7_witness :
    fsHas ({ Storage.mk0 [] with sdAvailable := true } : Storage).fs
      (resolveName ({ Storage.mk0 [] with sdAvailable := true } : Storage).fs
        (fileStem (macToStr macX) dX)) = false ∧
    (({ Storage.mk0 [] with sdAvailable := true } : Storage).createLogFile macX dX).fs =
      ({ Storage.mk0 [] with sdAvailable := true } : Storage).fs ++
        [⟨resolveName ({ Storage.mk0 [] with sdAvailable := true } : Storage).fs
            (fileStem (macToStr macX) dX), 0, 0⟩] ∧
    (fsHas ({ Storage.mk0 [] with sdAvailable := true } : Storage).fs
        (fileStem (macToStr macX) dX ++ ".json") = true →
      resolveName ({ Storage.mk0 [] with sdAvailable := true } : Storage).fs
          (fileStem (macToStr macX) dX) ≠ fileStem (macToStr macX) dX ++ ".json") ∧
    (resolveName ({ Storage.mk0 [] with sdAvailable := true } : Storage).fs
        (fileStem (macToStr macX) dX) = fileStem (macToStr macX) dX ++ ".json" ∨
      ∃ k, 1 ≤ k ∧ k < 100 ∧
        resolveName ({ Storage.mk0 [] with sdAvailable := true } : Storage).fs
            (fileStem (macToStr macX) dX) =
          candName (fileStem (macToStr macX) dX) k) :=
  C7_theorem { Storage.mk0 [] with sdAvailable := true } macX dX (by decide)

theorem resolveNameAux_exit (fs : List LogFileEntry) (stem : String)
    (hall : ∀ k, 1 ≤ k → k ≤ 99 → fsHas fs (candName stem k) = true) :
    ∀ fuel suffix name, 1 ≤ suffix → suffix ≤ 100 → suffix + fuel = 101 →
    fsHas fs name = true → (suffix = 100 → name = candName stem 99) →
    resolveNameAux fs stem fuel suffix name = candName stem 99 := by
  intro fuel
  induction fuel with
  | zero =>
    intro suffix name h1 h100 hinv hname hlast
    exact ((by omega : False)).elim
  | succ fuel ih =>
    intro suffix name h1 h100 hinv hname hlast
    rw [resolveNameAux]
    by_cases hs : suffix < 100
    · have hg : (fsHas fs name && decide (suffix < 100)) = true := by
        rw [hname, decide_eq_true hs]
        rfl
      rw [if_pos hg, candName_def]
      exact ih (suffix + 1) (candName stem suffix) (by omega) (by omega) (by omega)
        (hall suffix (by omega) (by omega))
        (fun h => by rw [show suffix = 99 from by omega])
    · have hg : (fsHas fs name && decide (suffix < 100)) = false := by
        rw [decide_eq_false hs, Bool.and_false]
      rw [if_neg (by simp [hg])]
      exact hlast (by omega)

theorem resolveName_exit (fs : List LogFileEntry) (stem : String)
    (hbase : fsHas fs (stem ++ ".json") = true)
    (hall : ∀ k, 1 ≤ k → k ≤ 99 → fsHas fs (candName stem k) = true) :
    resolveName fs stem = candName stem 99 :=
  resolveNameAux_exit fs stem hall 100 1 (stem ++ ".json") (by omega) (by omega)
    (by omega) hbase (fun h => by omega)

section CollisionExit

attribute [local irreducible] resolveName fsHas macToStr strToMac fileStem

theorem badCard_names :
    badCard.map (fun e => e.name) =
      (stemX ++ ".json") :: (List.range 99).map (fun k => candName stemX (k + 1)) := by
  simp [badCard, List.map_map]

theorem badCard_has_cand : ∀ k, 1 ≤ k → k ≤ 99 → fsHas badCard (candName stemX k) = true := by
  intro k hk1 hk2
  refine (fsHas_iff _ _).mpr ?_
  rw [badCard_names]
  refine List.mem_cons_of_mem _ (List.mem_map.mpr ⟨k - 1, List.mem_range.mpr (by omega), ?_⟩)
  rw [show k - 1 + 1 = k from by omega]

theorem badCard_has_base : fsHas badCard (stemX ++ ".json") = true := by
  refine (fsHas_iff _ _).mpr ?_
  rw [badCard_names]
  exact List.mem_cons_self _ _

theorem badCard_resolve : resolveName badCard stemX = candName stemX 99 :=
  resolveName_exit badCard stemX badCard_has_base badCard_has_cand

theorem createLogFile_of_collision (mac : List Nat) (d : GPSData) (st : Storage)
    (hcol : fsHas st.fs (resolveName st.fs (fileStem (macToStr mac) d)) = true) :
    st.createLogFile mac d =
      { st with
        macAddressStr := macToStr mac
        currentFileName := resolveName st.fs (fileStem (macToStr mac) d)
        fs := st.fs.map (fun e =>
          if e.name == resolveName st.fs (fileStem (macToStr mac) d) then
            ⟨resolveName st.fs (fileStem (macToStr mac) d), 0, 0⟩ else e)
        currentFileSize := 0
        recordCount := 0 } := by
  simp only [Storage.createLogFile, fsOpenWrite, hcol, if_true, ite_true]

/-- C7, counterexample to the claim as stated: on `badCard` (base name and
suffixes 1–99 all taken) the creation picks the suffix-99 name even though a
file of that name exists, opens it in truncating mode (the entry holding 5
records is replaced by an empty one) and adds no new file — an existing file
is opened for writing and overwritten. -/
theorem C7_counterexample :
    (stBad.createLogFile macX dX).currentFileName = candName stemX 99 ∧
    fsHas badCard (candName stemX 99) = true ∧
    (stBad.createLogFile macX dX).fs.length = badCard.length ∧
    (⟨candName stemX 99, 5, 100⟩ : LogFileEntry) ∈ badCard ∧
    (⟨candName stemX 99, 0, 0⟩ : LogFileEntry) ∈ (stBad.createLogFile macX dX).fs := by
  have hcol : fsHas stBad.fs
      (resolveName stBad.fs (fileStem (macToStr macX) dX)) = true := by
    show fsHas badCard (resolveName badCard stemX) = true
    rw [badCard_resolve]
    exact badCard_has_cand 99 (by omega) (by omega)
  have hmem : (⟨candName stemX 99, 5, 100⟩ : LogFileEntry) ∈ badCard := by
    refine List.mem_cons_of_mem _ (List.mem_map.mpr ⟨98, List.mem_range.mpr (by omega), rfl⟩)
  have hcc := createLogFile_of_collision macX dX stBad hcol
  have hres : resolveName stBad.fs (fileStem (macToStr macX) dX) = candName stemX 99 := by
    show resolveName badCard stemX = candName stemX 99
    exact badCard_resolve
  rw [hcc]
  rw [hres]
  rw [show stBad.fs = badCard from rfl]
  refine ⟨rfl, badCard_has_cand 99 (by omega) (by omega), ?_, hmem, ?_⟩
  · show (badCard.map _).length = badCard.length
    exact List.length_map _ _
  · have hm2 : (⟨candName stemX 99, 0, 0⟩ : LogFileEntry) ∈ List.map (fun e =>
        if e.name == candName stemX 99 then
          (⟨candName stemX 99, 0, 0⟩ : LogFileEntry) else e) badCard :=
      List.mem_map.mpr ⟨⟨candName stemX 99, 5, 100⟩, hmem, by simp⟩
    exact hm2


/-! ## Claim C8: lazy file creation -/

theorem write_invalid_noop (cfg : StorageCfg) (L : Nat) (d : GPSData) (mac : List Nat)
    (s : Nat) (st : Storage) (hfc : st.fileCreated = false) (hv : d.valid = false) :
    Storage.writeGPSData cfg L d mac s st = st := by
  by_cases hsd : st.sdAvailable = false
  · exact write_unavailable cfg L d mac s st hsd
  · simp [Storage.writeGPSData, hsd, hfc, hv]

theorem runWrites_invalid_noop (cfg : StorageCfg) (ws : List WriteSpec) (st : Storage)
    (hfc : st.fileCreated = false) (hws : ∀ w ∈ ws, w.data.valid = false) :
    Storage.runWrites cfg st ws = st := by
  induction ws with
  | nil => rfl
  | cons w ws ih =>
    rw [Storage.runWrites,
      write_invalid_noop cfg w.recLen w.data w.mac w.seq st hfc
        (hws w (List.mem_cons_self w ws))]
    exact ih (fun x hx => hws x (List.mem_cons_of_mem w hx))

/-- C8, amended: the store performs no write and touches no file before the
first `write()` call carrying a valid fix (any prefix of invalid-fix writes
leaves the session state unchanged); that first valid-fix call appends
exactly one record to exactly one file named from the identifier and the
fix's calendar timestamp — and, provided the card holds at most 98 files,
that file is newly created (on a card already holding the base name and all
99 suffixed variants, an existing file is truncated and reused instead; see
the counterexample). -/
theorem C8_theorem (cfg : StorageCfg) (card : List LogFileEntry) (ws : List WriteSpec)
    (mac : List Nat) (d : GPSData) (s L : Nat)
    (hws : ∀ w ∈ ws, w.data.valid = false) (hd : d.valid = true)
    (hcard : card.length ≤ 98) (hms : 0 < cfg.maxFileSize) (hmr : 0 < cfg.maxRecords) :
    Storage.runWrites cfg (Storage.begin true true (Storage.mk0 card)).2 ws =
      (Storage.begin true true (Storage.mk0 card)).2 ∧
    fsHas card (resolveName card (fileStem (macToStr mac) d)) = false ∧
    (Storage.writeGPSData cfg L d mac s
        (Storage.runWrites cfg (Storage.begin true true (Storage.mk0 card)).2 ws)).fs =
      card ++ [⟨resolveName card (fileStem (macToStr mac) d), 1, L⟩] ∧
    (Storage.writeGPSData cfg L d mac s
        (Storage.runWrites cfg (Storage.begin true true (Storage.mk0 card)).2 ws)).recordCount
      = 1 := by
  have hnoop := runWrites_invalid_noop cfg ws
    (Storage.begin true true (Storage.mk0 card)).2 rfl hws
  have hw := write_first cfg L d mac s (Storage.begin true true (Storage.mk0 card)).2
    rfl rfl hd (by show card.length ≤ 98; exact hcard) hms hmr
  refine ⟨hnoop, resolveName_fresh card (fileStem (macToStr mac) d) hcard, ?_, ?_⟩ <;>
    rw [hnoop, hw] <;> rfl

/-- C8, witness: the amended theorem at an empty card, one invalid-fix write
followed by the first valid-fix write. -/
theorem C8_witness :
    Storage.runWrites ⟨10 * 1024 * 1024, 10000⟩
        (Storage.begin true true (Storage.mk0 [])).2 [⟨gpsData0, macX, 1, 50⟩] =
      (Storage.begin true true (Storage.mk0 [])).2 ∧
    fsHas [] (resolveName [] (fileStem (macToStr macX) dX)) = false ∧
    (Storage.writeGPSData ⟨10 * 1024 * 1024, 10000⟩ 120 dX macX 2
        (Storage.runWrites ⟨10 * 1024 * 1024, 10000⟩
          (Storage.begin true true (Storage.mk0 [])).2 [⟨gpsData0, macX, 1, 50⟩])).fs =
      [] ++ [⟨resolveName [] (fileStem (macToStr macX) dX), 1, 120⟩] ∧
    (Storage.writeGPSData ⟨10 * 1024 * 1024, 10000⟩ 120 dX macX 2
        (Storage.runWrites ⟨10 * 1024 * 1024, 10000⟩
          (Storage.begin true true (Storage.mk0 [])).2 [⟨gpsData0, macX, 1, 50⟩])).recordCount
      = 1 :=
  C8_theorem ⟨10 * 1024 * 1024, 10000⟩ [] [⟨gpsData0, macX, 1, 50⟩] macX dX 2 120
    (by intro w hw; simp only [List.mem_singleton] at hw; subst hw; rfl)
    rfl (by norm_num) (by norm_num) (by norm_num)

theorem write_first_collision (cfg : StorageCfg) (L : Nat) (d : GPSData) (mac : List Nat)
    (s : Nat) (st : Storage) (hsd : st.sdAvailable = true) (hfc : st.fileCreated = false)
    (hv : d.valid = true)
    (hcol : fsHas st.fs (resolveName st.fs (fileStem (macToStr mac) d)) = true)
    (hms : 0 < cfg.maxFileSize) (hmr : 0 < cfg.maxRecords) :
    (Storage.writeGPSData cfg L d mac s st).fs.length = st.fs.length ∧
    (Storage.writeGPSData cfg L d mac s st).recordCount = 1 := by
  have h1 : ¬ (cfg.maxFileSize ≤ 0) := by omega
  have h2 : ¬ (cfg.maxRecords ≤ 0) := by omega
  simp only [Storage.writeGPSData, hsd, hfc, hv, and_self, if_true, Bool.true_eq_false,
    if_false, ite_true, ite_false, createLogFile_of_collision mac d st hcol,
    Storage.needsRotation, decide_eq_true_eq, Bool.or_eq_true, h1, h2, or_self,
    List.length_map, and_true]

/-- C8, counterexample to the claim as stated: on a card already holding the
base name and all 99 suffixed variants for the fix's timestamp, the first
`write()` with a valid fix creates no new file at all — the file count stays
at 100 where the claim requires exactly one new file; the record is appended
to a truncated pre-existing file. -/
theorem C8_counterexample :
    ((Storage.begin true true (Storage.mk0 badCard)).2).fileCreated = false ∧
    dX.valid = true ∧
    (Storage.writeGPSData ⟨10 * 1024 * 1024, 10000⟩ 120 dX macX 1
        (Storage.begin true true (Storage.mk0 badCard)).2).fs.length = badCard.length ∧
    (Storage.writeGPSData ⟨10 * 1024 * 1024, 10000⟩ 120 dX macX 1
        (Storage.begin true true (Storage.mk0 badCard)).2).recordCount = 1 := by
  have hcol : fsHas ((Storage.begin true true (Storage.mk0 badCard)).2).fs
      (resolveName ((Storage.begin true true (Storage.mk0 badCard)).2).fs
        (fileStem (macToStr macX) dX)) = true := by
    show fsHas badCard (resolveName badCard stemX) = true
    rw [badCard_resolve]
    exact badCard_has_cand 99 (by omega) (by omega)
  have hw := write_first_collision ⟨10 * 1024 * 1024, 10000⟩ 120 dX macX 1
    (Storage.begin true true (Storage.mk0 badCard)).2 rfl rfl rfl hcol
    (by norm_num) (by norm_num)
  exact ⟨rfl, rfl, hw.1, hw.2⟩

end CollisionExit


/-! ## Claim C4: rotation scenario -/

theorem decide_le_false {a b : Nat} (h : ¬ a ≤ b) : decide (a ≤ b) = false :=
  decide_eq_false h

theorem fsHas_nil (n : String) : fsHas [] n = false := rfl

section C4Section

attribute [local irreducible] resolveName fsHas macToStr strToMac fileStem

/-- C4: with the record-count ceiling set to 3 (the byte ceiling at its code
value of 10 MB), a fresh mounted store receiving 7 `write()` calls with
valid fixes (each serialized record at most 1024 bytes, so the byte ceiling
never triggers) ends up with exactly 3 files whose record counts are 3, 3
and 1: the thresholds are checked before each write, so rotation happens on
the 4th and 7th calls. -/
theorem C4_theorem (mac : List Nat)
    (d1 d2 d3 d4 d5 d6 d7 : GPSData) (s1 s2 s3 s4 s5 s6 s7 : Nat)
    (l1 l2 l3 l4 l5 l6 l7 : Nat)
    (hv1 : d1.valid = true) (hv2 : d2.valid = true) (hv3 : d3.valid = true)
    (hv4 : d4.valid = true) (hv5 : d5.valid = true) (hv6 : d6.valid = true)
    (hv7 : d7.valid = true)
    (hl1 : l1 ≤ 1024) (hl2 : l2 ≤ 1024) (hl3 : l3 ≤ 1024) (hl4 : l4 ≤ 1024)
    (hl5 : l5 ≤ 1024) (hl6 : l6 ≤ 1024) (hl7 : l7 ≤ 1024) :
    (Storage.runWrites ⟨10 * 1024 * 1024, 3⟩ (Storage.begin true true (Storage.mk0 [])).2
        [⟨d1, mac, s1, l1⟩, ⟨d2, mac, s2, l2⟩, ⟨d3, mac, s3, l3⟩, ⟨d4, mac, s4, l4⟩,
         ⟨d5, mac, s5, l5⟩, ⟨d6, mac, s6, l6⟩, ⟨d7, mac, s7, l7⟩]).fs.map
      (fun e => e.records) = [3, 3, 1] := by
  set m1 := macToStr mac with hm1
  set n1 := resolveName ([] : List LogFileEntry) (fileStem m1 d1) with hn1
  set A3 : List LogFileEntry := [⟨n1, 3, l1 + l2 + l3⟩] with hA3def
  set m2 := macToStr (strToMac m1) with hm2
  set n2 := resolveName A3 (fileStem m2 d4) with hn2
  set A6 : List LogFileEntry := [⟨n1, 3, l1 + l2 + l3⟩, ⟨n2, 3, l4 + l5 + l6⟩] with hA6def
  set m3 := macToStr (strToMac m2) with hm3
  set n3 := resolveName A6 (fileStem m3 d7) with hn3
  set ST1 : Storage := ⟨true, true, l1, 1, n1, m1, [⟨n1, 1, l1⟩]⟩ with hST1
  set ST2 : Storage := ⟨true, true, l1 + l2, 2, n1, m1, [⟨n1, 2, l1 + l2⟩]⟩ with hST2
  set ST3 : Storage := ⟨true, true, l1 + l2 + l3, 3, n1, m1, A3⟩ with hST3
  set ST4 : Storage := ⟨true, true, l4, 1, n2, m2, [⟨n1, 3, l1 + l2 + l3⟩, ⟨n2, 1, l4⟩]⟩
    with hST4
  set ST5 : Storage := ⟨true, true, l4 + l5, 2, n2, m2,
    [⟨n1, 3, l1 + l2 + l3⟩, ⟨n2, 2, l4 + l5⟩]⟩ with hST5
  set ST6 : Storage := ⟨true, true, l4 + l5 + l6, 3, n2, m2, A6⟩ with hST6
  set ST7 : Storage := ⟨true, true, l7, 1, n3, m3,
    [⟨n1, 3, l1 + l2 + l3⟩, ⟨n2, 3, l4 + l5 + l6⟩, ⟨n3, 1, l7⟩]⟩ with hST7
  have hms : 0 < (⟨10 * 1024 * 1024, 3⟩ : StorageCfg).maxFileSize := by
    show 0 < 10 * 1024 * 1024
    norm_num
  have hmr : 0 < (⟨10 * 1024 * 1024, 3⟩ : StorageCfg).maxRecords := by
    show 0 < 3
    norm_num
  have e1 : Storage.writeGPSData ⟨10 * 1024 * 1024, 3⟩ l1 d1 mac s1
      (Storage.begin true true (Storage.mk0 [])).2 = ST1 :=
    write_first _ l1 d1 mac s1 _ rfl rfl hv1 (by show (0 : Nat) ≤ 98; omega) hms hmr
  have e2 : Storage.writeGPSData ⟨10 * 1024 * 1024, 3⟩ l2 d2 mac s2 ST1 = ST2 :=
    write_steady _ l2 d2 mac s2 [] ⟨n1, 1, l1⟩ ST1 rfl rfl rfl rfl (fsHas_nil _)
      (by show (decide ((10 * 1024 * 1024 : Nat) ≤ l1) || decide ((3 : Nat) ≤ 1)) = false
          rw [decide_le_false (by omega), decide_le_false (by omega)]
          rfl)
  have e3 : Storage.writeGPSData ⟨10 * 1024 * 1024, 3⟩ l3 d3 mac s3 ST2 = ST3 :=
    write_steady _ l3 d3 mac s3 [] ⟨n1, 2, l1 + l2⟩ ST2 rfl rfl rfl rfl (fsHas_nil _)
      (by show (decide ((10 * 1024 * 1024 : Nat) ≤ l1 + l2) || decide ((3 : Nat) ≤ 2)) = false
          rw [decide_le_false (by omega), decide_le_false (by omega)]
          rfl)
  have e4 : Storage.writeGPSData ⟨10 * 1024 * 1024, 3⟩ l4 d4 mac s4 ST3 = ST4 :=
    write_rotate _ l4 d4 mac s4 ST3 rfl rfl (by show (1 : Nat) ≤ 98; omega)
      (by show (decide ((10 * 1024 * 1024 : Nat) ≤ l1 + l2 + l3) || decide ((3 : Nat) ≤ 3)) = true
          rw [decide_eq_true (by omega : (3 : Nat) ≤ 3), Bool.or_true])
      hms hmr
  have e5 : Storage.writeGPSData ⟨10 * 1024 * 1024, 3⟩ l5 d5 mac s5 ST4 = ST5 :=
    write_steady _ l5 d5 mac s5 A3 ⟨n2, 1, l4⟩ ST4 rfl rfl rfl rfl
      (resolveName_fresh A3 (fileStem m2 d4) (by show (1 : Nat) ≤ 98; omega))
      (by show (decide ((10 * 1024 * 1024 : Nat) ≤ l4) || decide ((3 : Nat) ≤ 1)) = false
          rw [decide_le_false (by omega), decide_le_false (by omega)]
          rfl)
  have e6 : Storage.writeGPSData ⟨10 * 1024 * 1024, 3⟩ l6 d6 mac s6 ST5 = ST6 :=
    write_steady _ l6 d6 mac s6 A3 ⟨n2, 2, l4 + l5⟩ ST5 rfl rfl rfl rfl
      (resolveName_fresh A3 (fileStem m2 d4) (by show (1 : Nat) ≤ 98; omega))
      (by show (decide ((10 * 1024 * 1024 : Nat) ≤ l4 + l5) || decide ((3 : Nat) ≤ 2)) = false
          rw [decide_le_false (by omega), decide_le_false (by omega)]
          rfl)
  have e7 : Storage.writeGPSData ⟨10 * 1024 * 1024, 3⟩ l7 d7 mac s7 ST6 = ST7 :=
    write_rotate _ l7 d7 mac s7 ST6 rfl rfl (by show (2 : Nat) ≤ 98; omega)
      (by show (decide ((10 * 1024 * 1024 : Nat) ≤ l4 + l5 + l6) || decide ((3 : Nat) ≤ 3)) = true
          rw [decide_eq_true (by omega : (3 : Nat) ≤ 3), Bool.or_true])
      hms hmr
  have hrun : Storage.runWrites ⟨10 * 1024 * 1024, 3⟩
      (Storage.begin true true (Storage.mk0 [])).2
      [⟨d1, mac, s1, l1⟩, ⟨d2, mac, s2, l2⟩, ⟨d3, mac, s3, l3⟩, ⟨d4, mac, s4, l4⟩,
       ⟨d5, mac, s5, l5⟩, ⟨d6, mac, s6, l6⟩, ⟨d7, mac, s7, l7⟩] = ST7 :=
    (congrArg (fun st => Storage.runWrites ⟨10 * 1024 * 1024, 3⟩ st
        [⟨d2, mac, s2, l2⟩, ⟨d3, mac, s3, l3⟩, ⟨d4, mac, s4, l4⟩,
         ⟨d5, mac, s5, l5⟩, ⟨d6, mac, s6, l6⟩, ⟨d7, mac, s7, l7⟩]) e1).trans
    ((congrArg (fun st => Storage.runWrites ⟨10 * 1024 * 1024, 3⟩ st
        [⟨d3, mac, s3, l3⟩, ⟨d4, mac, s4, l4⟩, ⟨d5, mac, s5, l5⟩,
         ⟨d6, mac, s6, l6⟩, ⟨d7, mac, s7, l7⟩]) e2).trans
    ((congrArg (fun st => Storage.runWrites ⟨10 * 1024 * 1024, 3⟩ st
        [⟨d4, mac, s4, l4⟩, ⟨d5, mac, s5, l5⟩, ⟨d6, mac, s6, l6⟩,
         ⟨d7, mac, s7, l7⟩]) e3).trans
    ((congrArg (fun st => Storage.runWrites ⟨10 * 1024 * 1024, 3⟩ st
        [⟨d5, mac, s5, l5⟩, ⟨d6, mac, s6, l6⟩, ⟨d7, mac, s7, l7⟩]) e4).trans
    ((congrArg (fun st => Storage.runWrites ⟨10 * 1024 * 1024, 3⟩ st
        [⟨d6, mac, s6, l6⟩, ⟨d7, mac, s7, l7⟩]) e5).trans
    ((congrArg (fun st => Storage.runWrites ⟨10 * 1024 * 1024, 3⟩ st
        [⟨d7, mac, s7, l7⟩]) e6).trans e7)))))
  rw [hrun, hST7]
  rfl

/-- C4, witness: the scenario theorem at a concrete MAC and seven concrete
valid fixes of 120 serialized bytes each. -/
theorem C4_witness :
    (Storage.runWrites ⟨10 * 1024 * 1024, 3⟩ (Storage.begin true true (Storage.mk0 [])).2
        [⟨dX, macX, 1, 120⟩, ⟨dX, macX, 2, 120⟩, ⟨dX, macX, 3, 120⟩, ⟨dX, macX, 4, 120⟩,
         ⟨dX, macX, 5, 120⟩, ⟨dX, macX, 6, 120⟩, ⟨dX, macX, 7, 120⟩]).fs.map
      (fun e => e.records) = [3, 3, 1] :=
  C4_theorem macX dX dX dX dX dX dX dX 1 2 3 4 5 6 7 120 120 120 120 120 120 120
    rfl rfl rfl rfl rfl rfl rfl (by norm_num) (by norm_num) (by norm_num) (by norm_num)
    (by norm_num) (by norm_num) (by norm_num)

end C4Section


/-! ## Claim C5: per-cycle orchestration -/

/-- C5, amended: in every broadcast cycle, the fix is handed to the log
store if and only if it is valid AND the broadcast reported success; when it
is handed over, the write uses the sequence number just assigned by the
transport; in all other cases (invalid fix, or every send attempt rejected)
the store is left untouched. -/
theorem C5_theorem (gpsData : GPSData) (boatName : String) (mac : List Nat)
    (accept : Nat → Bool) (cfg : StorageCfg) (recLen : Nat) (cst : CycleState) :
    (loopBroadcastCycle gpsData boatName mac accept cfg recLen cst).2.2 =
      (GPS.isValid gpsData &&
        (loopBroadcastCycle gpsData boatName mac accept cfg recLen cst).2.1) ∧
    (loopBroadcastCycle gpsData boatName mac accept cfg recLen cst).1.storage =
      (if (GPS.isValid gpsData &&
            (loopBroadcastCycle gpsData boatName mac accept cfg recLen cst).2.1) = true then
        Storage.writeGPSData cfg recLen gpsData mac
          (loopBroadcastCycle gpsData boatName mac accept cfg
            recLen cst).1.comm.sequenceCounter cst.storage
      else cst.storage) := by
  by_cases hv : GPS.isValid gpsData = true
  · cases hs : ((cst.comm.broadcastGPSData gpsData boatName 4 accept 5).1.map Prod.fst).getD false
    · simp [loopBroadcastCycle, hv, hs]
    · simp [loopBroadcastCycle, hv, hs]
  · have hv2 : GPS.isValid gpsData = false := by
      cases h : GPS.isValid gpsData
      · rfl
      · exact absurd h hv
    simp [loopBroadcastCycle, hv2]

/-- C5, counterexample to the claim as stated: a cycle with a valid fix in
which every radio send is rejected — the broadcast is attempted and fails,
and `storage.writeGPSData` is never invoked (the store is untouched), while
the claim requires a log write in every valid-fix cycle regardless of the
broadcast outcome. -/
theorem C5_counterexample :
    GPS.isValid dX = true ∧
    (loopBroadcastCycle dX "BOAT1" macX (fun _ => false)
        ⟨10 * 1024 * 1024, 10000⟩ 120 cst0).2.1 = false ∧
    (loopBroadcastCycle dX "BOAT1" macX (fun _ => false)
        ⟨10 * 1024 * 1024, 10000⟩ 120 cst0).2.2 = false ∧
    (loopBroadcastCycle dX "BOAT1" macX (fun _ => false)
        ⟨10 * 1024 * 1024, 10000⟩ 120 cst0).1.storage = cst0.storage := by
  decide

end BoatGPS
